import Mathlib

/-
Verification development for the alpaca_smart_trade repository.

The frontend sources (frontend/src/App.js and frontend/src/components/)
are embedded directly.  The Python backend files named by the README
(backend/app/risk_manager.py, backend/app/analysis/walk_forward.py,
backend/app/decision_engine.py, backend/app/analysis/regime_switching.py)
are not present in the sources; where a property depends on them the
definitions are modelled from the specification and marked as such.
-/

namespace AlpacaSmartTrade

/-- Trade action carried by a recommendation. -/
inductive Action where
  | buy
  | sell
  | hold
deriving DecidableEq, Repr

/-- Market regime produced by the regime classifier. -/
inductive Regime where
  | bullish
  | bearish
  | sideways
deriving DecidableEq, Repr

/-- One value stored in the analysis_breakdown object of a recommendation. -/
inductive BreakdownValue where
  | regimeVal (regime : Regime) (confidence : ℚ)
  | wfVal (expected_return : ℚ) (sharpe : ℚ)
deriving DecidableEq, Repr

/-- The analysis_breakdown JS object, embedded as a finite association list
from key strings to values, so that the key names read by the frontend are
first-class data. -/
abbrev Breakdown := List (String × BreakdownValue)

/-- Recommendation record in the shape consumed by the frontend components
(AnalysisResults.js and TradingPanel.js). The field sharpe_ratio of the
walk-forward part is embedded as sharpe inside BreakdownValue. -/
structure Recommendation where
  symbol : String
  action : Action
  confidence : ℚ
  position_size : ℕ
  position_value : ℚ
  analysis_breakdown : Breakdown
  reasoning : List String
  warnings : List String
deriving DecidableEq, Repr

/-- Summary counts rendered by AnalysisResults.js. -/
structure Summary where
  buy_signals : ℕ
  sell_signals : ℕ
  hold_signals : ℕ
deriving DecidableEq, Repr

/-- Shape of results.analysis as destructured by AnalysisResults.js line 13
and TradingPanel.js line 16: three action-grouped arrays plus a summary. -/
structure AnalysisPayload where
  buy_recommendations : List Recommendation
  sell_recommendations : List Recommendation
  hold_recommendations : List Recommendation
  summary : Summary
deriving DecidableEq, Repr

/-- Order type chosen by the user in TradingPanel.js. -/
inductive OrderType where
  | market
  | limit
deriving DecidableEq, Repr

/-- Local state of the TradingPanel component. Empty number-input fields are
embedded as none (the JS state holds the empty string, which is falsy). -/
structure PanelState where
  orderType : OrderType
  limitPrice : Option ℚ
  customQuantity : Option ℕ
  executing : Bool
deriving DecidableEq, Repr

/-- JS number that may be NaN: parseFloat applied to an empty field. -/
inductive JsNum where
  | nan
  | num (q : ℚ)
deriving DecidableEq, Repr

/-- parseFloat applied to the string held by a number-input field. -/
def parseFloatField : Option ℚ → JsNum
  | none => JsNum.nan
  | some q => JsNum.num q

/-- Body of the execute-trade request built by handleExecute
(TradingPanel.js lines 27 to 33). -/
structure TradeDetails where
  symbol : String
  action : Action
  quantity : ℕ
  order_type : OrderType
  limit_price : Option JsNum
deriving DecidableEq, Repr

/-- TradingPanel.js line 17: tradableRecommendations is the concatenation of
buy_recommendations and sell_recommendations. -/
def tradableRecommendations (p : AnalysisPayload) : List Recommendation :=
  p.buy_recommendations ++ p.sell_recommendations

/-- TradingPanel.js lines 25 to 33: the tradeDetails object. The quantity is
customQuantity when the field is nonempty, else position_size of the selected
stock; limit_price is spread in exactly when the order type is limit. -/
def tradeDetails (selectedStock : Recommendation) (st : PanelState) : TradeDetails :=
  { symbol := selectedStock.symbol
    action := selectedStock.action
    quantity := st.customQuantity.getD selectedStock.position_size
    order_type := st.orderType
    limit_price :=
      if st.orderType = OrderType.limit then some (parseFloatField st.limitPrice) else none }

/-- TradingPanel.js line 182: the Execute button is disabled while executing
or when a limit order is selected with an empty limit price field. -/
def executeDisabled (st : PanelState) : Bool :=
  st.executing || (st.orderType == OrderType.limit && st.limitPrice == none)

/-- TradingPanel.js line 64: the stock selected from the dropdown is found by
symbol among the tradable recommendations. -/
def selectStock (p : AnalysisPayload) (value : String) : Option Recommendation :=
  (tradableRecommendations p).find? (fun r => r.symbol == value)

/-- TradingPanel.js line 53: when there are no tradable recommendations the
panel shows the no-trades message instead of the execution controls. -/
def showsNoTrades (p : AnalysisPayload) : Bool :=
  (tradableRecommendations p).length == 0

/-- Configuration object loaded by App.js from the config endpoint. A missing
lookback_days field is embedded as none. -/
structure FrontendConfig where
  lookback_days : Option ℕ
  paper_trading : Bool
  telegram_configured : Bool
deriving DecidableEq, Repr

/-- App.js line 64: the expression with the JS or-operator applied to the
optional chain, namely config?.lookback_days || 60. The or-operator takes the
right branch on every falsy left value, so a configured value of 0 also
yields 60. -/
def lookbackDays (config : Option FrontendConfig) : ℕ :=
  match config with
  | none => 60
  | some c =>
    match c.lookback_days with
    | none => 60
    | some v => if v = 0 then 60 else v

/-- HTTP requests issued by the App.js handlers against the backend API. -/
inductive ApiRequest where
  | getAccount
  | getConfig
  | postAnalyze (symbols : List String) (lookback_days : ℕ)
  | postSendTelegram
  | postExecuteTrade (d : TradeDetails)
deriving DecidableEq, Repr

/-- Whether a request is an execute-trade request. -/
def ApiRequest.isExecuteTrade : ApiRequest → Bool
  | ApiRequest.postExecuteTrade _ => true
  | _ => false

/-- App.js loadAccountData: one GET of the account endpoint. -/
def loadAccountDataRequests : List ApiRequest :=
  [ApiRequest.getAccount]

/-- App.js loadConfig: one GET of the config endpoint. -/
def loadConfigRequests : List ApiRequest :=
  [ApiRequest.getConfig]

/-- App.js lines 56 to 80: runAnalysis issues exactly one POST of the analyze
endpoint, with the selected symbols and the lookback_days value. -/
def runAnalysisRequests (config : Option FrontendConfig)
    (selectedSymbols : List String) : List ApiRequest :=
  [ApiRequest.postAnalyze selectedSymbols (lookbackDays config)]

/-- App.js lines 82 to 104: sendToTelegram posts only when analysis results
are present. -/
def sendToTelegramRequests (haveResults : Bool) : List ApiRequest :=
  if haveResults then [ApiRequest.postSendTelegram] else []

/-- TradingPanel.js lines 19 to 47 together with App.js lines 106 to 124:
handleExecute does nothing without a selected stock; otherwise it posts the
execute-trade request built by tradeDetails, and on success the account data
is reloaded (once inside executeTrade, once by the delayed onRefresh). -/
def handleExecuteRequests (sel : Option Recommendation) (st : PanelState)
    (success : Bool) : List ApiRequest :=
  match sel with
  | none => []
  | some r =>
    ApiRequest.postExecuteTrade (tradeDetails r st) ::
      (if success then loadAccountDataRequests ++ loadAccountDataRequests else [])

/-- User-interface events of the app that trigger request-issuing handlers. -/
inductive UIEvent where
  | mount
  | runAnalysisClick (config : Option FrontendConfig) (selectedSymbols : List String)
  | sendTelegramClick (haveResults : Bool)
  | executeClick (sel : Option Recommendation) (st : PanelState) (success : Bool)
  | refreshClick
deriving Repr

/-- Requests issued by each event handler of App.js and TradingPanel.js. -/
def eventRequests : UIEvent → List ApiRequest
  | UIEvent.mount => loadAccountDataRequests ++ loadConfigRequests
  | UIEvent.runAnalysisClick c s => runAnalysisRequests c s
  | UIEvent.sendTelegramClick h => sendToTelegramRequests h
  | UIEvent.executeClick sel st success => handleExecuteRequests sel st success
  | UIEvent.refreshClick => loadAccountDataRequests

/-- AnalysisResults.js line 166: the all-recommendations tab renders the
concatenation buy, then sell, then hold. -/
def renderedRecommendations (p : AnalysisPayload) : List Recommendation :=
  p.buy_recommendations ++ p.sell_recommendations ++ p.hold_recommendations

/-- Key under which the frontend reads the regime part of the breakdown
(AnalysisResults.js lines 81 to 88). -/
def regimeSwitchingKey : String := "regime_switching"

/-- Key under which the frontend reads the walk-forward part of the breakdown
(AnalysisResults.js lines 90 to 98). -/
def walkForwardKey : String := "walk_forward"

/-- Key named by the specification for the regime part of the breakdown. -/
def regimeKeySpec : String := "regime"

/-- AnalysisResults.js line 81: the regime part displayed for a
recommendation is read from the breakdown under the key regime_switching. -/
def displayedRegimePart (r : Recommendation) : Option BreakdownValue :=
  r.analysis_breakdown.lookup regimeSwitchingKey

/-- AnalysisResults.js line 90: the walk-forward part displayed for a
recommendation is read from the breakdown under the key walk_forward. -/
def displayedWalkForwardPart (r : Recommendation) : Option BreakdownValue :=
  r.analysis_breakdown.lookup walkForwardKey

/-- Breakdown object in the shape the frontend reads: the regime part under
regime_switching and the walk-forward part under walk_forward. -/
def codeBreakdown (rv wv : BreakdownValue) : Breakdown :=
  [(regimeSwitchingKey, rv), (walkForwardKey, wv)]

/-- Breakdown object keyed as the specification words it: the regime part
under regime and the walk-forward part under walk_forward. -/
def specBreakdown (rv wv : BreakdownValue) : Breakdown :=
  [(regimeKeySpec, rv), (walkForwardKey, wv)]

/-- Price bar of a series. The field named open in the data model is embedded
as openP because open is a Lean keyword. -/
structure PriceBar where
  timestamp : ℕ
  openP : ℚ
  high : ℚ
  low : ℚ
  close : ℚ
  volume : ℚ
deriving DecidableEq, Repr

/-- One walk-forward window, as half-open index ranges into the series. -/
structure WfWindow where
  train_start : ℕ
  train_end : ℕ
  test_start : ℕ
  test_end : ℕ
deriving DecidableEq, Repr

/-- Error raised by the walk-forward optimizer. -/
inductive WalkForwardError where
  | insufficientWindows
deriving DecidableEq, Repr

/-- Modelled from the spec: the window partition of WalkForwardOptimizer
(backend/app/analysis/walk_forward.py is not among the sources). Windows
start from the earliest bar and advance by exactly test_days; each complete
window is train_days of training followed by test_days of testing; a final
partial window shorter than test_days is dropped. -/
def wfWindows (numBars train_days test_days : ℕ) : List WfWindow :=
  if test_days = 0 then []
  else
    (List.range ((numBars - train_days) / test_days)).map fun i =>
      { train_start := i * test_days
        train_end := i * test_days + train_days
        test_start := i * test_days + train_days
        test_end := i * test_days + train_days + test_days }

/-- Modelled from the spec: WalkForwardOptimizer.evaluate fails with
InsufficientWindowsError when fewer than 2 complete windows result; only the
window partition is modelled, since the per-window strategy is external to
the claims settled here. -/
def wfEvaluate (series : List PriceBar) (train_days test_days : ℕ) :
    Except WalkForwardError (List WfWindow) :=
  let ws := wfWindows series.length train_days test_days
  if ws.length < 2 then Except.error WalkForwardError.insufficientWindows
  else Except.ok ws

/-- One held position inside the account snapshot. -/
structure PositionInfo where
  quantity : ℕ
  market_value : ℚ
deriving DecidableEq, Repr

/-- Read-only account snapshot supplied by the broker collaborator. -/
structure AccountSnapshot where
  equity : ℚ
  cash : ℚ
  buying_power : ℚ
  day_trade_count : ℕ
  positions : List (String × PositionInfo)
deriving DecidableEq, Repr

/-- Result of a risk assessment. -/
structure RiskAssessment where
  position_size : ℕ
  position_value : ℚ
  warnings : List String
  blocked : Bool
deriving DecidableEq, Repr

/-- Quantity of a symbol held in the snapshot, none when not held. -/
def heldQuantity (account : AccountSnapshot) (symbol : String) : Option ℕ :=
  (account.positions.lookup symbol).map PositionInfo.quantity

/-- Market value currently allocated to a symbol in the snapshot. -/
def heldMarketValue (account : AccountSnapshot) (symbol : String) : ℚ :=
  ((account.positions.lookup symbol).map PositionInfo.market_value).getD 0

/-- Warning text for the balance check. -/
def wBalance : String := "account equity below minimum balance"

/-- Warning text for the buying-power check. -/
def wInsufficientBuyingPower : String := "insufficient buying power"

/-- Warning text for a sell of a symbol that is not held. -/
def wNotHeld : String := "symbol not held"

/-- Warning text for a concentration reduction. -/
def wConcentrationReduced : String := "position size reduced by concentration limit"

/-- Warning text for a concentration block. -/
def wConcentrationBlocked : String := "concentration limit leaves no size"

/-- Warning text for the PDT check. -/
def wPdt : String := "pattern day trading protection"

/-- Warning text for insufficient data. -/
def wInsufficientData : String := "insufficient data"

/-- Tolerance of the soft concentration constraint; the spec calls it a
configured tolerance and gives no default, its value is immaterial to the
claims settled here. -/
def concentrationTolerance : ℚ := 1 / 100

/-- Modelled from the spec: RiskManager.assess (backend/app/risk_manager.py
is not among the sources). Checks applied in order: balance, sizing,
concentration (soft), PDT; each can append a warning and block. -/
def assess (account : AccountSnapshot) (symbol : String) (action : Action)
    (proposed_quantity : ℕ) (last_price : ℚ)
    (max_position_fraction min_account_balance : ℚ)
    (pdt_protection_enabled : Bool) : RiskAssessment :=
  if account.equity < min_account_balance then
    { position_size := 0, position_value := 0, warnings := [wBalance], blocked := true }
  else
    let pdtBlocks : Bool :=
      pdt_protection_enabled && decide (account.equity < 25000)
        && decide (account.day_trade_count + 1 > 3)
    match action with
    | Action.hold =>
      { position_size := 0, position_value := 0, warnings := [], blocked := false }
    | Action.buy =>
      let budget := min (max_position_fraction * account.equity) account.buying_power
      let size0 : ℕ := (⌊budget / last_price⌋).toNat
      if size0 = 0 then
        { position_size := 0, position_value := 0
          warnings := [wInsufficientBuyingPower], blocked := true }
      else
        let existing := heldMarketValue account symbol
        let postFraction := (existing + size0 * last_price) / account.equity
        if postFraction > max_position_fraction + concentrationTolerance then
          let size1 : ℕ :=
            (⌊(max_position_fraction * account.equity - existing) / last_price⌋).toNat
          if size1 = 0 then
            { position_size := 0, position_value := 0
              warnings := [wConcentrationBlocked], blocked := true }
          else if pdtBlocks then
            { position_size := 0, position_value := 0
              warnings := [wConcentrationReduced, wPdt], blocked := true }
          else
            { position_size := size1, position_value := size1 * last_price
              warnings := [wConcentrationReduced], blocked := false }
        else if pdtBlocks then
          { position_size := 0, position_value := 0, warnings := [wPdt], blocked := true }
        else
          { position_size := size0, position_value := size0 * last_price
            warnings := [], blocked := false }
    | Action.sell =>
      match heldQuantity account symbol with
      | none =>
        { position_size := 0, position_value := 0, warnings := [wNotHeld], blocked := true }
      | some held =>
        let size := min proposed_quantity held
        if pdtBlocks then
          { position_size := 0, position_value := 0, warnings := [wPdt], blocked := true }
        else
          { position_size := size, position_value := size * last_price
            warnings := [], blocked := false }

/-- Directional vote cast by one technical indicator. -/
inductive IndicatorVote where
  | voteBullish
  | voteBearish
  | voteNeutral
deriving DecidableEq, Repr

/-- Regime and confidence produced by one classification call. -/
structure RegimeState where
  regime : Regime
  confidence : ℚ
deriving DecidableEq, Repr

/-- Modelled from the spec: the majority vote of RegimeClassifier
(backend/app/analysis/regime_switching.py is not among the sources); ties
resolve to Sideways. -/
def majorityRegime (votes : List IndicatorVote) : Regime :=
  let b := votes.count IndicatorVote.voteBullish
  let r := votes.count IndicatorVote.voteBearish
  let n := votes.count IndicatorVote.voteNeutral
  if b > r ∧ b > n then Regime.bullish
  else if r > b ∧ r > n then Regime.bearish
  else Regime.sideways

/-- Number of votes agreeing with the majority regime. -/
def agreeingVotes (votes : List IndicatorVote) : ℕ :=
  match majorityRegime votes with
  | Regime.bullish => votes.count IndicatorVote.voteBullish
  | Regime.bearish => votes.count IndicatorVote.voteBearish
  | Regime.sideways => votes.count IndicatorVote.voteNeutral

/-- Modelled from the spec: RegimeClassifier.classify on the cast votes;
confidence is the fraction of votes agreeing with the majority. The empty
vote list stands for the insufficient-data default Sideways, confidence 0. -/
def classify (votes : List IndicatorVote) : RegimeState :=
  if votes.isEmpty then { regime := Regime.sideways, confidence := 0 }
  else
    { regime := majorityRegime votes
      confidence := (agreeingVotes votes : ℚ) / votes.length }

/-- Walk-forward aggregate statistics consumed by the decision engine. The
source field sharpe_ratio is embedded as sharpe. -/
structure WalkForwardStats where
  sharpe : ℚ
  win_rate : ℚ
  expected_return : ℚ
  max_drawdown : ℚ
deriving DecidableEq, Repr

/-- Clip a rational to the closed unit interval. -/
def clip01 (x : ℚ) : ℚ := max 0 (min 1 x)

/-- Direction of a regime: Bullish +1, Bearish -1, Sideways 0. -/
def regimeDirection : Regime → ℤ
  | Regime.bullish => 1
  | Regime.bearish => -1
  | Regime.sideways => 0

/-- Modelled from the spec: walk-forward direction, the sign of the expected
return when its magnitude exceeds the materiality threshold, else 0. -/
def wfDirection (threshold : ℚ) (wf : WalkForwardStats) : ℤ :=
  if |wf.expected_return| > threshold then
    if wf.expected_return > 0 then 1
    else if wf.expected_return < 0 then -1
    else 0
  else 0

/-- Modelled from the spec: normalized score derived from the sharpe ratio
and the win rate, both clipped to the unit interval before averaging. -/
def wfScore (wf : WalkForwardStats) : ℚ :=
  (clip01 wf.sharpe + clip01 wf.win_rate) / 2

/-- Modelled from the spec: the DecisionEngine fusion rule
(backend/app/decision_engine.py is not among the sources). Agreeing nonzero
directions give BUY or SELL with confidence the equal-weight average of the
clipped regime confidence and the clipped score; disagreement, a zero
direction, or a SELL candidate on a symbol not held give HOLD with
confidence the minimum of the two component confidences. -/
def fuseSignals (rs : RegimeState) (wf : WalkForwardStats) (threshold : ℚ)
    (held : Bool) : Action × ℚ :=
  let rd := regimeDirection rs.regime
  let wd := wfDirection threshold wf
  let holdConfidence := min rs.confidence (wfScore wf)
  if rd = wd ∧ rd ≠ 0 then
    let action := if rd = 1 then Action.buy else Action.sell
    if action = Action.sell ∧ held = false then
      (Action.hold, holdConfidence)
    else
      (action, (clip01 rs.confidence + clip01 (wfScore wf)) / 2)
  else
    (Action.hold, holdConfidence)

/-- Per-symbol input of an analysis run. A none vote list embeds an
InsufficientDataError of the classifier; a none stats record embeds an
InsufficientWindowsError of the optimizer. -/
structure SymbolInput where
  symbol : String
  votes : Option (List IndicatorVote)
  wf : Option WalkForwardStats
  last_price : ℚ
deriving DecidableEq, Repr

/-- Configuration of the decision engine. -/
structure EngineConfig where
  max_position_fraction : ℚ
  min_account_balance : ℚ
  pdt_protection_enabled : Bool
  materiality_threshold : ℚ
deriving DecidableEq, Repr

/-- Modelled from the spec: the DecisionEngine per-symbol pipeline.
Insufficient data on either leg defaults to HOLD with confidence 0 and a
warning; otherwise the fused action is risk-checked and a blocked assessment
downgrades the action to HOLD and the size to 0, preserving the breakdown
and confidence and appending the risk warnings. Reasoning strings are
abstracted as the empty list, no claim concerns their text. -/
def decideSymbol (cfg : EngineConfig) (account : AccountSnapshot)
    (inp : SymbolInput) : Recommendation :=
  match inp.votes, inp.wf with
  | some votes, some wf =>
    let rs := classify votes
    let held := (heldQuantity account inp.symbol).isSome
    let fused := fuseSignals rs wf cfg.materiality_threshold held
    let breakdown := codeBreakdown
      (BreakdownValue.regimeVal rs.regime rs.confidence)
      (BreakdownValue.wfVal wf.expected_return wf.sharpe)
    match fused.fst with
    | Action.hold =>
      { symbol := inp.symbol, action := Action.hold, confidence := fused.snd
        position_size := 0, position_value := 0
        analysis_breakdown := breakdown, reasoning := [], warnings := [] }
    | a =>
      let proposed := (heldQuantity account inp.symbol).getD 0
      let risk := assess account inp.symbol a proposed inp.last_price
        cfg.max_position_fraction cfg.min_account_balance cfg.pdt_protection_enabled
      if risk.blocked then
        { symbol := inp.symbol, action := Action.hold, confidence := fused.snd
          position_size := 0, position_value := 0
          analysis_breakdown := breakdown, reasoning := [], warnings := risk.warnings }
      else
        { symbol := inp.symbol, action := a, confidence := fused.snd
          position_size := risk.position_size, position_value := risk.position_value
          analysis_breakdown := breakdown, reasoning := [], warnings := risk.warnings }
  | _, _ =>
    { symbol := inp.symbol, action := Action.hold, confidence := 0
      position_size := 0, position_value := 0
      analysis_breakdown := [], reasoning := [], warnings := [wInsufficientData] }

/-- Modelled from the spec: the batch analyze call, grouped into the
three action arrays of the payload shape the frontend consumes. -/
def analyze (cfg : EngineConfig) (account : AccountSnapshot)
    (inputs : List SymbolInput) : AnalysisPayload :=
  let recs := inputs.map (decideSymbol cfg account)
  let buys := recs.filter (fun r => r.action == Action.buy)
  let sells := recs.filter (fun r => r.action == Action.sell)
  let holds := recs.filter (fun r => r.action == Action.hold)
  { buy_recommendations := buys
    sell_recommendations := sells
    hold_recommendations := holds
    summary :=
      { buy_signals := buys.length
        sell_signals := sells.length
        hold_signals := holds.length } }

/-- Symbol constant used by concrete witnesses. -/
def symNVDA : String := "NVDA"

/-- Second symbol constant used by concrete witnesses. -/
def symTSLA : String := "TSLA"

/-- Panel state with a market order and all fields empty. -/
def panelMarket : PanelState :=
  { orderType := OrderType.market, limitPrice := none
    customQuantity := none, executing := false }

/-- Panel state with a limit order and a filled limit price. -/
def panelLimit : PanelState :=
  { orderType := OrderType.limit, limitPrice := some (mkRat 1055 10)
    customQuantity := some 5, executing := false }

/-- Concrete BUY recommendation used by witnesses. -/
def witRecA : Recommendation :=
  { symbol := symNVDA, action := Action.buy, confidence := mkRat 9 10
    position_size := 10, position_value := 1000
    analysis_breakdown := [], reasoning := [], warnings := [] }

/-- Concrete recommendation agreeing with witRecA on the execution fields
but differing on confidence, position_value and warnings. -/
def witRecB : Recommendation :=
  { witRecA with
    confidence := mkRat 1 10
    position_value := 999
    warnings := [wPdt] }

/-- Concrete SELL recommendation used by witnesses. -/
def witSellRec : Recommendation :=
  { witRecA with
    symbol := symTSLA
    action := Action.sell
    confidence := mkRat 3 5
    position_size := 4
    position_value := 0 }

/-- Concrete payload with one buy and one sell recommendation. -/
def witPayload : AnalysisPayload :=
  { buy_recommendations := [witRecA], sell_recommendations := [witSellRec]
    hold_recommendations := []
    summary := { buy_signals := 1, sell_signals := 1, hold_signals := 0 } }

/-- C2: the execute-trade request is constructed from the symbol, action and
position_size of the selected recommendation (position_size being the default
quantity) together with the user-chosen panel inputs, and from no other field
of the recommendation: two recommendations agreeing on those three fields
yield identical requests under the same panel state. -/
theorem trade_request_projection :
    (∀ (r1 r2 : Recommendation) (st : PanelState),
      r1.symbol = r2.symbol → r1.action = r2.action →
      r1.position_size = r2.position_size →
      tradeDetails r1 st = tradeDetails r2 st)
    ∧ (∀ (r : Recommendation) (st : PanelState),
      st.customQuantity = none → (tradeDetails r st).quantity = r.position_size) := by
  constructor
  · intro r1 r2 st hs ha hp
    simp [tradeDetails, hs, ha, hp]
  · intro r st hq
    simp [tradeDetails, hq]

/-- Witness for C2: two concrete recommendations that differ outside the
execution fields produce the same request, and the empty quantity field
defaults to position_size. -/
theorem trade_request_projection_witness :
    witRecA.symbol = witRecB.symbol ∧ witRecA.action = witRecB.action
    ∧ witRecA.position_size = witRecB.position_size
    ∧ witRecA ≠ witRecB
    ∧ tradeDetails witRecA panelMarket = tradeDetails witRecB panelMarket
    ∧ panelMarket.customQuantity = none
    ∧ (tradeDetails witRecA panelMarket).quantity = witRecA.position_size := by
  refine ⟨rfl, rfl, rfl, by decide, ?_, rfl, ?_⟩
  · exact trade_request_projection.1 witRecA witRecB panelMarket rfl rfl rfl
  · exact trade_request_projection.2 witRecA panelMarket rfl

/-- C9: the built request carries limit_price exactly when the chosen order
type is limit, and then it is the parsed user-entered price; with the Execute
button enabled and limit selected the price field is nonempty, so the request
carries a parsed numeric limit price. -/
theorem trade_limit_price_consistency :
    (∀ (r : Recommendation) (st : PanelState),
      ((tradeDetails r st).limit_price.isSome ↔ st.orderType = OrderType.limit)
      ∧ (st.orderType = OrderType.limit →
        (tradeDetails r st).limit_price = some (parseFloatField st.limitPrice)))
    ∧ (∀ (r : Recommendation) (st : PanelState),
      executeDisabled st = false → st.orderType = OrderType.limit →
      ∃ q : ℚ, st.limitPrice = some q
        ∧ (tradeDetails r st).limit_price = some (JsNum.num q)) := by
  constructor
  · intro r st
    constructor
    · constructor
      · intro h
        by_contra hne
        simp [tradeDetails, hne] at h
      · intro h
        simp [tradeDetails, h]
    · intro h
      simp [tradeDetails, h]
  · intro r st hd hl
    cases hq : st.limitPrice with
    | none =>
      exfalso
      simp [executeDisabled, hl, hq] at hd
    | some q =>
      exact ⟨q, rfl, by simp [tradeDetails, hl, hq, parseFloatField]⟩

/-- Witness for C9: a concrete enabled limit-order panel state yields a
request with the parsed limit price. -/
theorem trade_limit_price_consistency_witness :
    executeDisabled panelLimit = false
    ∧ panelLimit.orderType = OrderType.limit
    ∧ ∃ q : ℚ, panelLimit.limitPrice = some q
      ∧ (tradeDetails witRecA panelLimit).limit_price = some (JsNum.num q) :=
  ⟨by decide, rfl,
    trade_limit_price_consistency.2 witRecA panelLimit (by decide) rfl⟩

/-- C10: the selectable set of the trading panel is exactly the buy
recommendations followed by the sell recommendations; under the action
grouping of the payload a selected stock is never a HOLD recommendation; and
when both lists are empty the panel shows the no-trades message instead of
the execution controls. -/
theorem tradable_excludes_hold :
    ∀ (p : AnalysisPayload),
    tradableRecommendations p = p.buy_recommendations ++ p.sell_recommendations
    ∧ ((∀ r ∈ p.buy_recommendations, r.action = Action.buy) →
      (∀ r ∈ p.sell_recommendations, r.action = Action.sell) →
      ∀ s r, selectStock p s = some r → r.action ≠ Action.hold)
    ∧ (p.buy_recommendations = [] → p.sell_recommendations = [] →
      showsNoTrades p = true) := by
  intro p
  refine ⟨rfl, ?_, ?_⟩
  · intro hb hs s r hfind
    have hmem : r ∈ tradableRecommendations p := List.mem_of_find?_eq_some hfind
    rw [tradableRecommendations, List.mem_append] at hmem
    rcases hmem with h | h
    · rw [hb r h]
      decide
    · rw [hs r h]
      decide
  · intro h1 h2
    simp [showsNoTrades, tradableRecommendations, h1, h2]

/-- Witness for C10: on a concrete action-grouped payload, selecting the sell
symbol returns the sell recommendation, whose action is not HOLD. -/
theorem tradable_excludes_hold_witness :
    (∀ r ∈ witPayload.buy_recommendations, r.action = Action.buy)
    ∧ (∀ r ∈ witPayload.sell_recommendations, r.action = Action.sell)
    ∧ selectStock witPayload symTSLA = some witSellRec
    ∧ witSellRec.action ≠ Action.hold := by
  refine ⟨by decide, by decide, by decide, ?_⟩
  exact (tradable_excludes_hold witPayload).2.1 (by decide) (by decide)
    symTSLA witSellRec (by decide)

/-- C3: trade execution is gated by manual approval and never triggered by
analysis: the runAnalysis flow issues no execute-trade request, and among all
request-issuing handlers only the Execute click of the trading panel issues
an execute-trade request. -/
theorem execute_trade_gated_by_manual_approval :
    (∀ (c : Option FrontendConfig) (s : List String) (q : ApiRequest),
      q ∈ runAnalysisRequests c s → q.isExecuteTrade = false)
    ∧ (∀ (e : UIEvent) (q : ApiRequest),
      q ∈ eventRequests e → q.isExecuteTrade = true →
      ∃ sel st success, e = UIEvent.executeClick sel st success) := by
  constructor
  · intro c s q hq
    simp only [runAnalysisRequests, List.mem_singleton] at hq
    subst hq
    rfl
  · intro e q hq hex
    cases e with
    | mount =>
      exfalso
      simp only [eventRequests, loadAccountDataRequests, loadConfigRequests,
        List.cons_append, List.nil_append, List.mem_cons,
        List.not_mem_nil, or_false] at hq
      rcases hq with h | h <;> subst h <;>
        simp [ApiRequest.isExecuteTrade] at hex
    | runAnalysisClick c s =>
      exfalso
      simp only [eventRequests, runAnalysisRequests, List.mem_singleton] at hq
      subst hq
      simp [ApiRequest.isExecuteTrade] at hex
    | sendTelegramClick h =>
      exfalso
      cases h with
      | false =>
        simp [eventRequests, sendToTelegramRequests] at hq
      | true =>
        simp [eventRequests, sendToTelegramRequests] at hq
        subst hq
        simp [ApiRequest.isExecuteTrade] at hex
    | executeClick sel st success =>
      exact ⟨sel, st, success, rfl⟩
    | refreshClick =>
      exfalso
      simp only [eventRequests, loadAccountDataRequests, List.mem_singleton] at hq
      subst hq
      simp [ApiRequest.isExecuteTrade] at hex

/-- Witness for C3: the concrete analyze request of a runAnalysis call is not
an execute-trade request, and a concrete execute-trade request arises from an
Execute click event. -/
theorem execute_trade_gated_witness :
    (ApiRequest.postAnalyze [symNVDA] 60 ∈ runAnalysisRequests none [symNVDA]
      ∧ (ApiRequest.postAnalyze [symNVDA] 60).isExecuteTrade = false)
    ∧ ∃ sel st success,
      UIEvent.executeClick (some witRecA) panelMarket true
        = UIEvent.executeClick sel st success := by
  refine ⟨⟨by decide, ?_⟩, ?_⟩
  · exact execute_trade_gated_by_manual_approval.1 none [symNVDA]
      (ApiRequest.postAnalyze [symNVDA] 60) (by decide)
  · exact execute_trade_gated_by_manual_approval.2
      (UIEvent.executeClick (some witRecA) panelMarket true)
      (ApiRequest.postExecuteTrade (tradeDetails witRecA panelMarket))
      (by decide) (by decide)

/-- Concrete config with lookback_days configured as 0. -/
def cfgZeroLookback : FrontendConfig :=
  { lookback_days := some 0, paper_trading := true, telegram_configured := false }

/-- Concrete config with lookback_days configured as 90. -/
def cfgLookback90 : FrontendConfig :=
  { lookback_days := some 90, paper_trading := true, telegram_configured := true }

/-- C8 counterexample: with a configured lookback_days of 0 available to the
caller, the analyze request is built with 60 and not with the configured
value, because the JS or-operator treats 0 as falsy. -/
theorem lookback_zero_counterexample :
    cfgZeroLookback.lookback_days = some 0
    ∧ runAnalysisRequests (some cfgZeroLookback) [symNVDA]
        = [ApiRequest.postAnalyze [symNVDA] 60]
    ∧ lookbackDays (some cfgZeroLookback) ≠ 0 :=
  ⟨rfl, rfl, by decide⟩

/-- C8 amended: every analyze request supplies lookback_days; when no config
is loaded or the configured field is absent the default 60 is used; a
configured nonzero value is used as given; a configured value of 0 is falsy
in JS and also falls back to 60. -/
theorem analyze_request_lookback :
    (∀ (c : Option FrontendConfig) (syms : List String),
      runAnalysisRequests c syms = [ApiRequest.postAnalyze syms (lookbackDays c)])
    ∧ lookbackDays none = 60
    ∧ (∀ fc : FrontendConfig, fc.lookback_days = none → lookbackDays (some fc) = 60)
    ∧ (∀ (fc : FrontendConfig) (v : ℕ), fc.lookback_days = some v → v ≠ 0 →
      lookbackDays (some fc) = v)
    ∧ (∀ fc : FrontendConfig, fc.lookback_days = some 0 →
      lookbackDays (some fc) = 60) := by
  refine ⟨fun c syms => rfl, rfl, ?_, ?_, ?_⟩
  · intro fc h
    simp [lookbackDays, h]
  · intro fc v h hv
    simp [lookbackDays, h, hv]
  · intro fc h
    simp [lookbackDays, h]

/-- Witness for the amended C8: a configured nonzero lookback of 90 is used
as given. -/
theorem analyze_request_lookback_witness :
    cfgLookback90.lookback_days = some 90 ∧ (90 : ℕ) ≠ 0
    ∧ lookbackDays (some cfgLookback90) = 90 :=
  ⟨rfl, by decide,
    analyze_request_lookback.2.2.2.1 cfgLookback90 90 rfl (by decide)⟩

/-- Concrete regime breakdown value. -/
def demoRegimeVal : BreakdownValue := BreakdownValue.regimeVal Regime.bullish (mkRat 3 4)

/-- Concrete walk-forward breakdown value. -/
def demoWfVal : BreakdownValue := BreakdownValue.wfVal (mkRat 1 20) (mkRat 6 5)

/-- Concrete recommendation whose breakdown is keyed as the spec words it. -/
def specKeyedRec : Recommendation :=
  { witRecA with analysis_breakdown := specBreakdown demoRegimeVal demoWfVal }

/-- C7 counterexample: the presentation layer reads the regime part of the
breakdown under the key regime_switching, so on a breakdown storing the
regime classification under the key regime (as the claim states) it displays
no regime part even though the value is present under regime. -/
theorem breakdown_regime_key_counterexample :
    displayedRegimePart specKeyedRec = none
    ∧ specKeyedRec.analysis_breakdown.lookup regimeKeySpec = some demoRegimeVal
    ∧ regimeSwitchingKey ≠ regimeKeySpec :=
  ⟨by decide, by decide, by decide⟩

/-- C7 amended: the breakdown stores the regime classification under the key
regime_switching and the backtest result under walk_forward, and these are
exactly the keys the presentation layer reads when displaying the
breakdown. -/
theorem breakdown_keys_read :
    ∀ (r : Recommendation) (rv wv : BreakdownValue),
    displayedRegimePart { r with analysis_breakdown := codeBreakdown rv wv } = some rv
    ∧ displayedWalkForwardPart { r with analysis_breakdown := codeBreakdown rv wv }
      = some wv := by
  intro r rv wv
  have h1 : (walkForwardKey == regimeSwitchingKey) = false := by decide
  constructor
  · simp [displayedRegimePart, codeBreakdown, List.lookup]
  · simp [displayedWalkForwardPart, codeBreakdown, List.lookup, h1]

/-- Recommendation sharing the symbol of witRecA with a different action. -/
def dupSellSameSymbol : Recommendation :=
  { witRecA with action := Action.sell, confidence := mkRat 1 2 }

/-- Payload holding two recommendations for one symbol, one buy and one
sell. -/
def dupPayload : AnalysisPayload :=
  { buy_recommendations := [witRecA]
    sell_recommendations := [dupSellSameSymbol]
    hold_recommendations := []
    summary := { buy_signals := 1, sell_signals := 1, hold_signals := 0 } }

/-- C6 counterexample: the shape consumed by the presentation and execution
layers is three action-grouped arrays and not a symbol-keyed mapping: the
frontend consumes a payload holding two distinct recommendations for one
symbol, which no symbol-keyed association list with distinct keys can
represent. -/
theorem consumed_shape_not_symbol_keyed :
    renderedRecommendations dupPayload = [witRecA, dupSellSameSymbol]
    ∧ witRecA.symbol = dupSellSameSymbol.symbol
    ∧ witRecA ≠ dupSellSameSymbol
    ∧ ¬ ∃ m : List (String × Recommendation),
        (∀ e ∈ m, e.fst = e.snd.symbol)
        ∧ (m.map Prod.fst).Nodup
        ∧ m.map Prod.snd = renderedRecommendations dupPayload := by
  refine ⟨rfl, rfl, by decide, ?_⟩
  rintro ⟨m, hkeys, hnodup, hmap⟩
  have hr : renderedRecommendations dupPayload = [witRecA, dupSellSameSymbol] := rfl
  rw [hr] at hmap
  rcases m with _ | ⟨a, _ | ⟨b, _ | ⟨c, m4⟩⟩⟩
  · simp at hmap
  · simp at hmap
  · simp only [List.map_cons, List.map_nil, List.cons.injEq, and_true] at hmap
    obtain ⟨ha, hb⟩ := hmap
    have hka : a.1 = witRecA.symbol := by
      rw [hkeys a (by simp), ha]
    have hkb : b.1 = dupSellSameSymbol.symbol := by
      rw [hkeys b (by simp), hb]
    have hne : a.1 ≠ b.1 := by
      simp only [List.map_cons, List.map_nil, List.nodup_cons,
        List.mem_singleton, List.mem_cons, List.not_mem_nil, or_false] at hnodup
      exact hnodup.1
    refine hne ?_
    rw [hka, hkb]
    rfl
  · exact absurd (congrArg List.length hmap) (by simp)

/-- C6 amended: analyze returns its recommendations to consumers as three
action-grouped arrays; under the action grouping each rendered
recommendation lies in exactly the array matching its action. -/
theorem recommendations_action_grouped :
    ∀ (p : AnalysisPayload),
    (∀ r ∈ p.buy_recommendations, r.action = Action.buy) →
    (∀ r ∈ p.sell_recommendations, r.action = Action.sell) →
    (∀ r ∈ p.hold_recommendations, r.action = Action.hold) →
    ∀ r ∈ renderedRecommendations p,
      (r.action = Action.buy ↔ r ∈ p.buy_recommendations)
      ∧ (r.action = Action.sell ↔ r ∈ p.sell_recommendations)
      ∧ (r.action = Action.hold ↔ r ∈ p.hold_recommendations) := by
  intro p hb hs hh r hr
  rw [renderedRecommendations] at hr
  simp only [List.mem_append] at hr
  rcases hr with (h | h) | h
  · have ha := hb r h
    exact ⟨⟨fun _ => h, fun _ => ha⟩,
      ⟨fun hx => absurd (ha.symm.trans hx) (by decide), hs r⟩,
      ⟨fun hx => absurd (ha.symm.trans hx) (by decide), hh r⟩⟩
  · have ha := hs r h
    exact ⟨⟨fun hx => absurd (ha.symm.trans hx) (by decide), hb r⟩,
      ⟨fun _ => h, fun _ => ha⟩,
      ⟨fun hx => absurd (ha.symm.trans hx) (by decide), hh r⟩⟩
  · have ha := hh r h
    exact ⟨⟨fun hx => absurd (ha.symm.trans hx) (by decide), hb r⟩,
      ⟨fun hx => absurd (ha.symm.trans hx) (by decide), hs r⟩,
      ⟨fun _ => h, fun _ => ha⟩⟩

/-- Witness for the amended C6 at a concrete grouped payload. -/
theorem recommendations_action_grouped_witness :
    witRecA ∈ renderedRecommendations witPayload
    ∧ (witRecA.action = Action.buy ↔ witRecA ∈ witPayload.buy_recommendations) := by
  refine ⟨by decide, ?_⟩
  exact (recommendations_action_grouped witPayload (by decide) (by decide)
    (by decide) witRecA (by decide)).1

/-- Constant bar used to build concrete series. -/
def flatBar (t : ℕ) : PriceBar :=
  { timestamp := t, openP := 100, high := 101, low := 99, close := 100, volume := 1000 }

/-- Concrete 65-bar series. -/
def series65 : List PriceBar := (List.range 65).map flatBar

/-- Concrete 32-bar series. -/
def series32 : List PriceBar := (List.range 32).map flatBar

/-- C4: evaluate with train_days 30 and test_days 5 yields exactly 7 complete
windows on a 65-bar series, every window test range ending inside the series
(no partial window retained), and fails with InsufficientWindowsError on a
32-bar series. -/
theorem walk_forward_window_counts :
    (wfEvaluate series65 30 5).toOption.map List.length = some 7
    ∧ (wfEvaluate series65 30 5).toOption.map
        (fun ws => ws.all fun w => decide (w.test_end ≤ 65)) = some true
    ∧ wfEvaluate series32 30 5 = Except.error WalkForwardError.insufficientWindows := by
  refine ⟨rfl, rfl, rfl⟩

/-- Account snapshot of the sizing scenario: equity 10000, cash 10000 with
equal buying power, no open positions. -/
def scenarioAccount : AccountSnapshot :=
  { equity := 10000, cash := 10000, buying_power := 10000
    day_trade_count := 0, positions := [] }

/-- C5: for a BUY on the scenario account with max_position_fraction 1/10 and
last price 100, assess returns position_size 10 and position_value 1000
without blocking, and 10 is the value of the spec sizing formula. -/
theorem buy_sizing_scenario :
    assess scenarioAccount symNVDA Action.buy 0 100 (1 / 10) 1000 true
      = { position_size := 10, position_value := 1000, warnings := [], blocked := false }
    ∧ (10 : ℕ)
      = (⌊min ((1 / 10 : ℚ) * scenarioAccount.equity) scenarioAccount.buying_power
          / 100⌋).toNat := by
  have hfrac : min ((1 / 10 : ℚ) * 10000) 10000 = 1000 := by norm_num
  have hdiv : ((1000 : ℚ)) / 100 = 10 := by norm_num
  have hfloor : (⌊min ((1 / 10 : ℚ) * 10000) 10000 / 100⌋).toNat = 10 := by
    rw [hfrac, hdiv]
    simp
  constructor
  · simp only [assess, scenarioAccount, heldMarketValue, concentrationTolerance]
    have htn : Int.toNat 10 = 10 := rfl
    norm_num [hfloor]
    rw [htn]
    norm_num
  · rw [show scenarioAccount.equity = 10000 from rfl,
      show scenarioAccount.buying_power = 10000 from rfl, hfloor]

theorem clip01_nonneg (x : ℚ) : 0 ≤ clip01 x :=
  le_max_left 0 (min 1 x)

theorem clip01_le_one (x : ℚ) : clip01 x ≤ 1 :=
  max_le (by norm_num) (min_le_left 1 x)

theorem wfScore_nonneg (wf : WalkForwardStats) : 0 ≤ wfScore wf := by
  unfold wfScore
  have h1 := clip01_nonneg wf.sharpe
  have h2 := clip01_nonneg wf.win_rate
  linarith

theorem wfScore_le_one (wf : WalkForwardStats) : wfScore wf ≤ 1 := by
  unfold wfScore
  have h1 := clip01_le_one wf.sharpe
  have h2 := clip01_le_one wf.win_rate
  linarith

theorem agreeingVotes_le_length (votes : List IndicatorVote) :
    agreeingVotes votes ≤ votes.length := by
  unfold agreeingVotes
  cases majorityRegime votes <;> exact List.count_le_length _ _

theorem classify_confidence_nonneg (votes : List IndicatorVote) :
    0 ≤ (classify votes).confidence := by
  unfold classify
  split
  · exact le_refl 0
  · exact div_nonneg (Nat.cast_nonneg _) (Nat.cast_nonneg _)

theorem classify_confidence_le_one (votes : List IndicatorVote) :
    (classify votes).confidence ≤ 1 := by
  unfold classify
  split
  · norm_num
  · rename_i hne
    have hlen : 0 < votes.length := by
      cases votes with
      | nil => simp at hne
      | cons a t => simp
    have hpos : (0 : ℚ) < votes.length := by exact_mod_cast hlen
    rw [div_le_one hpos]
    exact_mod_cast agreeingVotes_le_length votes

theorem fuse_confidence_bounds (rs : RegimeState) (wf : WalkForwardStats)
    (threshold : ℚ) (held : Bool)
    (h0 : 0 ≤ rs.confidence) (h1 : rs.confidence ≤ 1) :
    0 ≤ (fuseSignals rs wf threshold held).snd
    ∧ (fuseSignals rs wf threshold held).snd ≤ 1 := by
  have hs0 := wfScore_nonneg wf
  have hs1 := wfScore_le_one wf
  have hc0 := clip01_nonneg rs.confidence
  have hc1 := clip01_le_one rs.confidence
  have hw0 := clip01_nonneg (wfScore wf)
  have hw1 := clip01_le_one (wfScore wf)
  have hmin0 : 0 ≤ min rs.confidence (wfScore wf) := le_min h0 hs0
  have hmin1 : min rs.confidence (wfScore wf) ≤ 1 :=
    le_trans (min_le_left _ _) h1
  unfold fuseSignals
  dsimp only
  split_ifs <;>
    first
      | exact ⟨hmin0, hmin1⟩
      | refine ⟨by positivity, ?_⟩
  all_goals rw [div_le_one (by norm_num : (0:ℚ) < 2)]
  all_goals linarith

theorem decideSymbol_confidence_bounds (cfg : EngineConfig)
    (account : AccountSnapshot) (inp : SymbolInput) :
    0 ≤ (decideSymbol cfg account inp).confidence
    ∧ (decideSymbol cfg account inp).confidence ≤ 1 := by
  unfold decideSymbol
  cases hv : inp.votes with
  | none =>
    cases hw : inp.wf <;> exact ⟨le_refl 0, by norm_num⟩
  | some votes =>
    cases hw : inp.wf with
    | none => exact ⟨le_refl 0, by norm_num⟩
    | some wf =>
      have hb := fuse_confidence_bounds (classify votes) wf
        cfg.materiality_threshold ((heldQuantity account inp.symbol).isSome)
        (classify_confidence_nonneg votes) (classify_confidence_le_one votes)
      dsimp only
      cases hfu : (fuseSignals (classify votes) wf cfg.materiality_threshold
          ((heldQuantity account inp.symbol).isSome)).fst with
      | hold => simpa using hb
      | buy =>
        dsimp only
        split <;> simpa using hb
      | sell =>
        dsimp only
        split <;> simpa using hb

/-- C1: for every recommendation produced by an analysis run and for all
inputs, the confidence field lies in the closed unit interval, so the
presentation layer can render it unconditionally as a percentage and as a
bar of width confidence times 100 percent. -/
theorem confidence_in_unit_interval :
    ∀ (cfg : EngineConfig) (account : AccountSnapshot) (inputs : List SymbolInput),
    ∀ r ∈ renderedRecommendations (analyze cfg account inputs),
      0 ≤ r.confidence ∧ r.confidence ≤ 1 := by
  intro cfg account inputs r hr
  have hmem : r ∈ inputs.map (decideSymbol cfg account) := by
    rw [renderedRecommendations] at hr
    simp only [analyze, List.mem_append, List.mem_filter] at hr
    rcases hr with (h | h) | h <;> exact h.1
  obtain ⟨inp, hinp, hdec⟩ := List.mem_map.mp hmem
  rw [← hdec]
  exact decideSymbol_confidence_bounds cfg account inp

/-- Engine configuration used by concrete witnesses. -/
def witEngineConfig : EngineConfig :=
  { max_position_fraction := mkRat 1 10, min_account_balance := 1000
    pdt_protection_enabled := true, materiality_threshold := mkRat 1 100 }

/-- Concrete symbol input on the insufficient-data path. -/
def witInsufficientInput : SymbolInput :=
  { symbol := symNVDA, votes := none, wf := none, last_price := 100 }

/-- Witness for C1: a concrete analysis run produces a recommendation whose
confidence lies in the unit interval. -/
theorem confidence_in_unit_interval_witness :
    decideSymbol witEngineConfig scenarioAccount witInsufficientInput
      ∈ renderedRecommendations
        (analyze witEngineConfig scenarioAccount [witInsufficientInput])
    ∧ 0 ≤ (decideSymbol witEngineConfig scenarioAccount witInsufficientInput).confidence
    ∧ (decideSymbol witEngineConfig scenarioAccount witInsufficientInput).confidence ≤ 1 :=
  ⟨by decide,
    confidence_in_unit_interval witEngineConfig scenarioAccount
      [witInsufficientInput]
      (decideSymbol witEngineConfig scenarioAccount witInsufficientInput)
      (by decide)⟩

end AlpacaSmartTrade
